import Mathlib

/-
Shallow embedding of the orchestration core of the aleo-oracle-sdk-js client:
address building (src/address.ts), the backend fan-out join (request.ts,
requestBackendMesh), response settlement, client-side consistency validation
and verification filtering (client.ts: handleAttestations, verifyReports,
getAttestedRandom, constructor), and the relevant default constants
(defaults.ts).  Network and DNS are external collaborators: they enter the
embedding as explicit inputs (lists of per-backend outcomes, a verifier
response value, a resolver function).  JavaScript runtime semantics that the
code relies on are embedded explicitly: `Array.prototype.sort()` with no
comparator compares decimal string representations code unit by code unit,
`Promise.allSettled` preserves input order, object spread merges keys with
the right operand winning.
-/

deriving instance DecidableEq for Except

namespace AleoOracleSDK

/-! ### JavaScript string/number primitives -/

/-- Code-unit lexicographic comparison of two character lists, as JS compares
strings (`<` on strings).  For ASCII decimal digits this is exactly the JS
behaviour. -/
def jsCharListLt : List Char → List Char → Bool
  | _, [] => false
  | [], _ :: _ => true
  | a :: as, b :: bs =>
    if a < b then true
    else if b < a then false
    else jsCharListLt as bs

/-- The comparison `String(a) < String(b)` that `Array.prototype.sort()` uses
when called with no comparator, restricted to the natural numbers that appear
as timestamps. -/
def jsNumStringLt (a b : Nat) : Bool :=
  jsCharListLt (Nat.repr a).data (Nat.repr b).data

/-- Insert into a list sorted by the JS default (string) order. -/
def jsSortInsert (a : Nat) : List Nat → List Nat
  | [] => [a]
  | b :: bs => if jsNumStringLt b a then b :: jsSortInsert a bs else a :: b :: bs

/-- `Array.prototype.sort()` with no comparator on an array of numbers:
sorts by the decimal string representations, NOT numerically. -/
def jsDefaultSort (l : List Nat) : List Nat := l.foldr jsSortInsert []

/-- JS `Array.prototype.filter((_, index) => p(index))`: keep the elements
whose position satisfies `p`, in order; the counter argument is the index of
the head of the remaining list. -/
def jsFilterIdx (p : Nat → Bool) : Nat → List α → List α
  | _, [] => []
  | i, a :: rest => if p i then a :: jsFilterIdx p (i + 1) rest else jsFilterIdx p (i + 1) rest

/-- A JS template literal rendering of a possibly-`undefined` string
(`undefined` renders as the text "undefined"). -/
def jsTemplateOptStr : Option String → String
  | some s => s
  | none => "undefined"

/-! ### address.ts -/

/-- `trimPath` of src/address.ts: trim whitespace; empty stays empty;
collapse a leading run of slashes to one, drop a trailing run of slashes,
and make sure the result starts with a slash. -/
def trimPath (path : String) : String :=
  let res := path.trim
  if res = ("") then res
  else
    let cs := res.data
    let collapsed := if cs.head? = some '/' then '/' :: cs.dropWhile (· = '/') else cs
    let noTrail := (collapsed.reverse.dropWhile (· = '/')).reverse
    let out := String.mk noTrail
    if out.startsWith ("/") then out else String.mk ('/' :: noTrail)

/-- `trimUrl` of src/address.ts: trim whitespace, then delete all trailing
slashes (the source loops `while endsWith '/'` dropping the last character). -/
def trimUrl (url : String) : String :=
  let t := url.trim
  String.mk (t.data.reverse.dropWhile (· = '/')).reverse

/-! ### Data model (types.ts), restricted to the fields the orchestration
logic reads.  `init` (the fetch options) is modelled as an association list
of option keys to values, which is what JS object spread acts on. -/

/-- A backend configuration (`CustomBackendConfig` of types.ts).
`apiPrefix` is optional in the source type, hence `Option String`. -/
structure CustomBackendConfig where
  address : String
  port : Nat
  https : Bool
  resolve : Bool
  apiPrefix : Option String
  init : List (String × String)
  deriving DecidableEq, Repr, Inhabited

/-- One resolved target (`IpAndUrl` of address.ts). -/
structure IpAndUrl where
  ip : String
  url : String
  path : String
  deriving DecidableEq, Repr

/-- A notarization backend's successful response (`AttestationResponse` of
types.ts), restricted to the fields `handleAttestations` reads; the report
blob stands in for the remaining opaque payload. -/
structure AttestationResponse where
  enclaveUrl : String
  attestationData : String
  timestamp : Nat
  attestationReport : String
  deriving DecidableEq, Repr, Inhabited

/-- `NotarizationOptions` of types.ts. -/
structure NotarizationOptions where
  dataShouldMatch : Bool
  timeout : Option Nat
  maxTimeDeviation : Option Nat
  deriving DecidableEq, Repr

/-- The verifier's parsed verdict body `{ validReports, errorMessage }`. -/
structure VerifierVerdict where
  validReports : List Nat
  errorMessage : String
  deriving DecidableEq, Repr

/-- The verifier's winning HTTP response as `verifyReports` consumes it:
a status, its text, and the JSON body (`none` models a body that fails to
parse as JSON). -/
structure VerifierResponse where
  status : Nat
  statusText : String
  body : Option VerifierVerdict
  deriving DecidableEq, Repr

/-- Causes of the `AttestationIntegrityError`s the client throws, each with
the structured cause payload the source attaches. -/
inductive IntegrityCause where
  | unexpectedAttestationCount (expected got : Nat)
  | dataMismatch (observed : List String)
  | timestampDeviation (maxTimeDeviation : Nat) (timestamps : List Nat)
  | verificationFailedStatus (statusText : String)
  | verificationFailedAllReports (errorMessage : String)
  | failedToVerifyReports
  deriving DecidableEq, Repr

/-- Causes of the plain `Error`s thrown by the same code paths. -/
inductive GenericCause where
  | verificationParseFailed (statusText : String)
  | invalidRandomUpperBound
  deriving DecidableEq, Repr

/-- A thrown error: either an `AttestationIntegrityError` or a plain `Error`. -/
inductive ClientError where
  | integrity (cause : IntegrityCause)
  | generic (cause : GenericCause)
  deriving DecidableEq, Repr

/-- Whether a thrown error is an `AttestationIntegrityError`. -/
def ClientError.isIntegrity : ClientError → Bool
  | .integrity _ => true
  | .generic _ => false

/-! ### defaults.ts -/

/-- `DEFAULT_FETCH_OPTIONS` of defaults.ts as an option association list. -/
def DEFAULT_FETCH_OPTIONS : List (String × String) :=
  [("cache", "no-store"), ("mode", "cors"), ("redirect", "follow"),
   ("referrer", ""), ("keepalive", "false")]

/-- `DEFAULT_NOTARIZATION_BACKENDS` of defaults.ts. -/
def DEFAULT_NOTARIZATION_BACKENDS : List CustomBackendConfig :=
  [{ address := "sgx.aleooracle.xyz", port := 443, https := true,
     apiPrefix := some (""), resolve := true, init := DEFAULT_FETCH_OPTIONS },
   { address := "nitro.aleooracle.xyz", port := 443, https := true,
     apiPrefix := some (""), resolve := true, init := DEFAULT_FETCH_OPTIONS }]

/-- `DEFAULT_VERIFICATION_BACKEND` of defaults.ts, a module-level constant
object shared by every client instance that does not supply its own
verifier. -/
def DEFAULT_VERIFICATION_BACKEND : CustomBackendConfig :=
  { address := "verifier.aleooracle.xyz", port := 443, https := true,
    apiPrefix := some (""), resolve := true, init := DEFAULT_FETCH_OPTIONS }

/-- `DEFAULT_NOTARIZATION_OPTIONS` of defaults.ts. -/
def DEFAULT_NOTARIZATION_OPTIONS : NotarizationOptions :=
  { dataShouldMatch := true, timeout := some 5000, maxTimeDeviation := none }

/-- JS object spread `{ ...a, ...b }` on option association lists: keys of
`a` in their order with values overridden by `b` where present, followed by
the keys only `b` has. -/
def jsSpread (a b : List (String × String)) : List (String × String) :=
  (a.map fun kv =>
    match b.lookup kv.1 with
    | some v => (kv.1, v)
    | none => kv)
  ++ b.filter (fun kv => (a.lookup kv.1).isNone)

/-! ### address.ts: getOrResolveFullAddress -/

/-- The entry built for one ip inside `getOrResolveFullAddress`
(the source interpolates `info.apiPrefix` into a template literal). -/
def buildIpAndUrl (info : CustomBackendConfig) (path : String) (ip : String) : IpAndUrl :=
  let trimmedPath := trimPath path
  let scheme := if info.https then ("https://") else ("http://")
  { ip := ip,
    url := scheme ++ ip ++ (":") ++ toString info.port
           ++ jsTemplateOptStr (CustomBackendConfig.apiPrefix info) ++ trimmedPath,
    path := jsTemplateOptStr (CustomBackendConfig.apiPrefix info) ++ trimmedPath }

/-- `getOrResolveFullAddress` of src/address.ts.  `isIP` models
`net.isIP(address) !== 0` and `resolver` models `dns.promises.resolve4`,
both external collaborators.  The source starts from `[info.address]` and
replaces it with the resolver's list exactly when the address is not an IP
literal and resolution is enabled for this backend. -/
def getOrResolveFullAddress (isIP : String → Bool) (resolver : String → Except ε (List String))
    (info : CustomBackendConfig) (path : String) : Except ε (List IpAndUrl) :=
  let ips : Except ε (List String) :=
    if isIP info.address = false ∧ info.resolve = true then resolver info.address
    else .ok [info.address]
  match ips with
  | .error e => .error e
  | .ok l => .ok (l.map (buildIpAndUrl info path))

/-! ### request.ts: the fan-out join -/

/-- The value of a settled promise when it fulfilled. -/
def exceptOk : Except ε ρ → Option ρ
  | .ok v => some v
  | .error _ => none

/-- The reason of a settled promise when it rejected. -/
def exceptErr : Except ε ρ → Option ε
  | .error e => some e
  | .ok _ => none

/-- The `settledResult.forEach` loop shared by `requestBackendMesh`,
`settleAttestationResponses` and `enclavesInfo`: one left-to-right pass
pushing fulfilled values and rejection reasons into two lists. -/
def settleFold (settled : List (Except ε ρ)) : List ρ × List ε :=
  settled.foldl
    (fun acc r =>
      match r with
      | .ok v => (acc.1 ++ [v], acc.2)
      | .error e => (acc.1, acc.2 ++ [e]))
    ([], [])

/-- `requestBackendMesh` of request.ts after `Promise.allSettled`: the input
is the list of per-backend race outcomes in configured-backend order (the
order `Promise.allSettled` preserves); the output is every fulfilled
response, or, when there is none, one aggregate error carrying every
backend's rejection reason. -/
def requestBackendMesh (settled : List (Except ε ρ)) : Except (List ε) (List ρ) :=
  let acc := settleFold settled
  if acc.1.length = 0 then .error acc.2 else .ok acc.1

/-- `OracleClient.settleAttestationResponses` of client.ts after
`Promise.allSettled` over `handleAttestationResponse`: same join shape,
throwing `all attestations failed` with the collected reasons when no
response was interpreted successfully. -/
def settleAttestationResponses (settled : List (Except ε α)) : Except (List ε) (List α) :=
  let acc := settleFold settled
  if acc.1.length = 0 then .error acc.2 else .ok acc.1

/-! ### client.ts: verifyReports -/

/-- `OracleClient.verifyReports` of client.ts from the point where the
verifier's winning response is in hand: non-200 throws an
`AttestationIntegrityError`; a body that fails to parse throws a plain
`Error('verification failed')`; an empty `validReports` throws an
`AttestationIntegrityError`; otherwise the submitted list is filtered down
to the indices `validReports` contains. -/
def verifyReports (attestations : List AttestationResponse) (response : VerifierResponse) :
    Except ClientError (List AttestationResponse) :=
  if response.status ≠ 200 then
    .error (.integrity (.verificationFailedStatus response.statusText))
  else
    match response.body with
    | none => .error (.generic (.verificationParseFailed response.statusText))
    | some jsonBody =>
      if jsonBody.validReports.length = 0 then
        .error (.integrity (.verificationFailedAllReports jsonBody.errorMessage))
      else
        .ok (jsFilterIdx (fun i => jsonBody.validReports.contains i) 0 attestations)

/-! ### client.ts: handleAttestations -/

/-- The data-match scan of `handleAttestations` (the `for` loop over
`i = 1..n-1`): a mismatch is found when matching is enabled and some later
attestation's data differs from the first one's. -/
def dataMatchFails (dataShouldMatch : Bool) (attestations : List AttestationResponse) : Bool :=
  match attestations with
  | [] => false
  | first :: rest =>
    dataShouldMatch && rest.any (fun a => a.attestationData != first.attestationData)

/-- The tail of `handleAttestations` after the client-side checks: send the
batch to the verifier and reject an empty surviving set. -/
def afterClientChecks (attestations : List AttestationResponse) (vresp : VerifierResponse) :
    Except ClientError (List AttestationResponse) :=
  match verifyReports attestations vresp with
  | .error e => .error e
  | .ok valid =>
    if valid.length = 0 then .error (.integrity .failedToVerifyReports)
    else .ok valid

/-- `OracleClient.handleAttestations` of client.ts.  `numBackends` is
`this.#oracleBackends.length`; `vresp` is the verifier's winning response
(the network round trip of `verifyReports`).  The deviation check sorts the
timestamps with JS's default (string) sort and compares the last and first
entries of the sorted array. -/
def handleAttestations (numBackends : Nat) (options : NotarizationOptions)
    (attestations : List AttestationResponse) (vresp : VerifierResponse) :
    Except ClientError (List AttestationResponse) :=
  let n := attestations.length
  if n = 0 ∨ n > numBackends then
    .error (.integrity (.unexpectedAttestationCount numBackends n))
  else if dataMatchFails options.dataShouldMatch attestations then
    .error (.integrity (.dataMismatch (attestations.map (·.attestationData))))
  else
    match options.maxTimeDeviation with
    | some d =>
      let sorted := jsDefaultSort (attestations.map (·.timestamp))
      if ((sorted.getD (n - 1) 0 : Int) - (sorted.getD 0 0 : Int)) > (d : Int) then
        .error (.integrity (.timestampDeviation d sorted))
      else afterClientChecks attestations vresp
    | none => afterClientChecks attestations vresp

/-! ### client.ts: getAttestedRandom -/

/-- The request plan of `OracleClient.getAttestedRandom`: the precondition
`max <= 1n || max > (2n << 127n)` is checked before any resolution or
network activity; past it, every configured backend is sent one logical GET
to `/random?max=<decimal max>` (each backend's race over its resolved IPs is
below this level of abstraction). -/
def getAttestedRandomPlan (backends : List CustomBackendConfig) (max : Int) :
    Except ClientError (List (CustomBackendConfig × String × String)) :=
  if max ≤ 1 ∨ max > 2 * 2 ^ 127 then
    .error (.generic .invalidRandomUpperBound)
  else
    .ok (backends.map fun b => (b, ("GET"), ("/random?max=") ++ toString max))

/-! ### client.ts: the constructor's verifier normalization (lines 54-99).
The construction `const conf = { ...config }` copies the config one level
deep, so `conf.verifier` is the very object the caller passed; when no
verifier is passed, `this.#verifier` is the module constant
`DEFAULT_VERIFICATION_BACKEND` itself.  The world holds the two objects the
constructor can reach; a `VerifierRef` is the object identity stored into
`this.#verifier`. -/

/-- The mutable objects the constructor's verifier branch can reach. -/
structure VerifierWorld where
  callerVerifier : Option CustomBackendConfig
  defaultVerifier : CustomBackendConfig
  deriving DecidableEq, Repr

/-- Which object `this.#verifier` aliases. -/
inductive VerifierRef where
  | caller
  | defaultBackend
  deriving DecidableEq, Repr

/-- Mutate the object a reference points at. -/
def writeVerifierRef (w : VerifierWorld) (r : VerifierRef)
    (f : CustomBackendConfig → CustomBackendConfig) : VerifierWorld :=
  match r with
  | .caller => { w with callerVerifier := w.callerVerifier.map f }
  | .defaultBackend => { w with defaultVerifier := f w.defaultVerifier }

/-- Lines 95-97 of client.ts: `this.#verifier.address = trimUrl(...)` and
`this.#verifier.apiPrefix = trimPath(this.#verifier.apiPrefix || '')`,
writing through the stored reference. -/
def sanitizeVerifier (w : VerifierWorld) (r : VerifierRef) : VerifierWorld :=
  writeVerifierRef w r fun v =>
    { v with address := trimUrl v.address,
             apiPrefix := some (trimPath ((CustomBackendConfig.apiPrefix v).getD (""))) }

/-- Lines 82-99 of the constructor: with a caller-supplied verifier, merge
the default fetch options under its `init` and default its `apiPrefix`
in place, alias `this.#verifier` to it and sanitize through the alias;
with none, alias `this.#verifier` to the module constant and sanitize
through the alias. -/
def constructorVerifierSetup (w : VerifierWorld) : VerifierWorld × VerifierRef :=
  match w.callerVerifier with
  | some v =>
    let w1 : VerifierWorld :=
      { w with callerVerifier := some ({ v with
          init := jsSpread DEFAULT_FETCH_OPTIONS v.init,
          apiPrefix := some ((CustomBackendConfig.apiPrefix v).getD ("")) }) }
    (sanitizeVerifier w1 .caller, .caller)
  | none =>
    (sanitizeVerifier w .defaultBackend, .defaultBackend)

/-! ### Specification-side selection for the verification verdict -/

/-- The attestations at the accepted positions, in position order: walk the
positions `0..n-1` in increasing order, keep those the verdict contains, and
read the element at each kept position. -/
def attestationsAtIndices (l : List AttestationResponse) (idxs : List Nat) :
    List AttestationResponse :=
  ((List.range l.length).filter (fun i => idxs.contains i)).map (fun i => l.getD i default)

/-! ### Concrete fixtures used to instantiate the theorems -/

/-- A sample successful attestation from the first default backend. -/
def attSgx : AttestationResponse :=
  { enclaveUrl := "https://sgx.aleooracle.xyz", attestationData := "42",
    timestamp := 100, attestationReport := "reportSgx" }

/-- A sample successful attestation from the second default backend. -/
def attNitro : AttestationResponse :=
  { enclaveUrl := "https://nitro.aleooracle.xyz", attestationData := "42",
    timestamp := 9, attestationReport := "reportNitro" }

/-- A third sample attestation. -/
def attThird : AttestationResponse :=
  { enclaveUrl := "https://third.example", attestationData := "43",
    timestamp := 101, attestationReport := "reportThird" }

/-- A verifier response accepting every submitted report of a batch of two. -/
def respAcceptBoth : VerifierResponse :=
  { status := 200, statusText := "200",
    body := some { validReports := [0, 1], errorMessage := "" } }

/-- A verifier response accepting indices 0 and 2 of a batch of three. -/
def respAcceptZeroTwo : VerifierResponse :=
  { status := 200, statusText := "200",
    body := some { validReports := [0, 2], errorMessage := "" } }

/-- A verifier response whose body fails to parse as JSON. -/
def respParseFail : VerifierResponse :=
  { status := 200, statusText := "200", body := none }

/-- A verifier response with a non-200 status. -/
def respStatus500 : VerifierResponse :=
  { status := 500, statusText := "500", body := none }

/-- The constructor's world when the caller supplies no verifier config. -/
def worldDefault : VerifierWorld :=
  { callerVerifier := none, defaultVerifier := DEFAULT_VERIFICATION_BACKEND }

/-! ### Helper lemmas -/

/-- Filtering by index keeps a sublist: order and multiplicity of the kept
elements are those of the input. -/
theorem jsFilterIdx_sublist (p : Nat → Bool) (l : List α) :
    ∀ i, List.Sublist (jsFilterIdx p i l) l := by
  induction l with
  | nil => intro i; simp [jsFilterIdx]
  | cons a rest ih =>
    intro i
    simp only [jsFilterIdx]
    by_cases h : p i
    · simpa [h] using List.Sublist.cons₂ a (ih (i + 1))
    · simpa [h] using List.Sublist.cons a (ih (i + 1))

/-- The JS `filter((_, index) => p(index))` started at counter `k` picks out
exactly the elements at the positions (relative to `k`) that satisfy `p`, in
increasing position order. -/
theorem jsFilterIdx_eq_range' [Inhabited α] (p : Nat → Bool) :
    ∀ (l : List α) (k : Nat),
      jsFilterIdx p k l =
        ((List.range' k l.length).filter p).map (fun i => l.getD (i - k) default) := by
  intro l
  induction l with
  | nil => intro k; simp [jsFilterIdx]
  | cons a rest ih =>
    intro k
    have hr : List.range' k (rest.length + 1) = k :: List.range' (k + 1) rest.length :=
      List.range'_succ k rest.length 1
    have hmap : ∀ i ∈ (List.range' (k + 1) rest.length).filter p,
        (a :: rest).getD (i - k) default = rest.getD (i - (k + 1)) default := by
      intro i hi
      have hk : k + 1 ≤ i := (List.mem_range'_1.1 (List.mem_of_mem_filter hi)).1
      have h1 : i - k = (i - (k + 1)) + 1 := by omega
      rw [h1]
      simp [List.getD]
    simp only [jsFilterIdx, List.length_cons, hr, List.filter_cons]
    by_cases h : p k
    · simp only [h, if_pos, List.map_cons, Nat.sub_self]
      refine congrArg₂ _ rfl ?_
      rw [ih (k + 1)]
      exact (List.map_congr_left hmap).symm
    · simp only [h, Bool.false_eq_true, if_neg, not_false_iff]
      rw [ih (k + 1)]
      exact (List.map_congr_left hmap).symm

/-- The single forEach pass of the join collects exactly the fulfilled
values and the rejection reasons, each in input order. -/
theorem settleFold_eq (settled : List (Except ε ρ)) :
    settleFold settled = (settled.filterMap exceptOk, settled.filterMap exceptErr) := by
  have go : ∀ (l : List (Except ε ρ)) (acc : List ρ × List ε),
      List.foldl
        (fun acc r =>
          match r with
          | .ok v => (acc.1 ++ [v], acc.2)
          | .error e => (acc.1, acc.2 ++ [e]))
        acc l
      = (acc.1 ++ l.filterMap exceptOk, acc.2 ++ l.filterMap exceptErr) := by
    intro l
    induction l with
    | nil => intro acc; simp
    | cons r rest ih =>
      intro acc
      cases r with
      | ok v => simp [List.foldl_cons, ih, exceptOk, exceptErr, List.filterMap_cons]
      | error e => simp [List.foldl_cons, ih, exceptOk, exceptErr, List.filterMap_cons]
  simpa [settleFold] using go settled ([], [])

/-- A successful verification filter is a sublist of the submitted batch. -/
theorem verifyReports_ok_sublist (atts : List AttestationResponse) (resp : VerifierResponse)
    (vs : List AttestationResponse) (h : verifyReports atts resp = Except.ok vs) :
    List.Sublist vs atts := by
  unfold verifyReports at h
  split at h
  · cases h
  · split at h
    · cases h
    · split at h
      · cases h
      · cases h
        exact jsFilterIdx_sublist _ atts 0

/-- The only errors `verifyReports` throws: bad status (integrity), parse
failure (plain), empty verdict (integrity). -/
theorem verifyReports_error_shape (atts : List AttestationResponse) (resp : VerifierResponse)
    (e : ClientError) (h : verifyReports atts resp = Except.error e) :
    (∃ s, e = .integrity (.verificationFailedStatus s))
    ∨ (∃ s, e = .generic (.verificationParseFailed s))
    ∨ (∃ m, e = .integrity (.verificationFailedAllReports m)) := by
  unfold verifyReports at h
  split at h
  · cases h; exact Or.inl ⟨_, rfl⟩
  · split at h
    · cases h; exact Or.inr (Or.inl ⟨_, rfl⟩)
    · split at h
      · cases h; exact Or.inr (Or.inr ⟨_, rfl⟩)
      · cases h

/-- A successful tail of `handleAttestations` has a non-empty result that is
a sublist of the validated batch. -/
theorem afterClientChecks_ok (atts : List AttestationResponse) (vresp : VerifierResponse)
    (out : List AttestationResponse) (h : afterClientChecks atts vresp = Except.ok out) :
    out.length ≠ 0 ∧ List.Sublist out atts := by
  unfold afterClientChecks at h
  cases hv : verifyReports atts vresp with
  | error e => rw [hv] at h; cases h
  | ok valid =>
    rw [hv] at h
    dsimp only at h
    by_cases hlen : valid.length = 0
    · rw [if_pos hlen] at h; cases h
    · rw [if_neg hlen] at h
      cases h
      exact ⟨hlen, verifyReports_ok_sublist atts vresp _ hv⟩

/-- The tail of `handleAttestations` never throws a data-mismatch error:
its errors come from `verifyReports` or are `failedToVerifyReports`. -/
theorem afterClientChecks_ne_dataMismatch (atts : List AttestationResponse)
    (vresp : VerifierResponse) (obs : List String) :
    afterClientChecks atts vresp ≠ Except.error (.integrity (.dataMismatch obs)) := by
  intro h
  unfold afterClientChecks at h
  split at h
  · rename_i e he
    cases h
    rcases verifyReports_error_shape atts vresp _ he with ⟨s, hs⟩ | ⟨s, hs⟩ | ⟨m, hm⟩ <;> simp_all
  · split at h
    · cases h
    · cases h

/-- A mismatch against the first attestation exists as soon as any two
attestations disagree on extracted data. -/
theorem dataMatchFails_of_pair_ne (atts : List AttestationResponse)
    (a b : AttestationResponse) (ha : a ∈ atts) (hb : b ∈ atts)
    (hne : a.attestationData ≠ b.attestationData) :
    dataMatchFails true atts = true := by
  cases atts with
  | nil => cases ha
  | cons first rest =>
    simp only [dataMatchFails, Bool.true_and, List.any_eq_true, bne_iff_ne]
    by_contra hall
    push_neg at hall
    have hfix : ∀ x ∈ first :: rest, x.attestationData = first.attestationData := by
      intro x hx
      rcases List.mem_cons.1 hx with rfl | hx
      · rfl
      · exact hall x hx
    exact hne ((hfix a ha).trans (hfix b hb).symm)

/-- When every extracted value agrees with the first one, the scan finds no
mismatch whatever the flag. -/
theorem dataMatchFails_false_of_all_eq (dsm : Bool) (first : AttestationResponse)
    (rest : List AttestationResponse)
    (h : ∀ x ∈ rest, x.attestationData = first.attestationData) :
    dataMatchFails dsm (first :: rest) = false := by
  simp only [dataMatchFails, Bool.and_eq_false_iff]
  right
  simp only [List.any_eq_false, bne_iff_ne, ne_eq, not_not]
  exact h

/-! ### Claim theorems -/

/-- C1 (code bug): `handleAttestations` sorts the attestation timestamps
with the JS default `sort()`, which compares decimal strings, not numbers.
With timestamps 100 and 9 the sorted array is `[100, 9]` (because the string
"100" precedes "9"), the computed span is `9 - 100 = -91`, and a call with
`maxTimeDeviation = 50` passes the deviation check and succeeds, although
the real span `100 - 9 = 91` exceeds the bound, so the claim that such a
call fails with a timestamp-deviation IntegrityError does not hold of the
code. -/
theorem handleAttestations_deviation_lexicographic_bug :
    handleAttestations 2
        { dataShouldMatch := true, timeout := some 5000, maxTimeDeviation := some 50 }
        [attSgx, attNitro] respAcceptBoth = Except.ok [attSgx, attNitro]
    ∧ attSgx.timestamp = 100 ∧ attNitro.timestamp = 9
    ∧ jsDefaultSort [100, 9] = [100, 9]
    ∧ (100 : Int) - 9 > 50 := by
  refine ⟨by decide, rfl, rfl, by decide, by decide⟩

/-- C2: when the verifier answers 200 with a parsed verdict accepting a
non-empty set of in-range indices, `verifyReports` returns exactly the
attestations at those positions, in their original order, and raises no
error; the accepted subset is non-empty, so a partial acceptance is a
success. -/
theorem verifyReports_partial_acceptance (atts : List AttestationResponse)
    (resp : VerifierResponse) (v : VerifierVerdict)
    (hs : resp.status = 200) (hb : resp.body = some v)
    (hne : v.validReports ≠ [])
    (hlt : ∀ i ∈ v.validReports, i < atts.length) :
    verifyReports atts resp = Except.ok (attestationsAtIndices atts v.validReports)
    ∧ attestationsAtIndices atts v.validReports ≠ [] := by
  have hlen : ¬ v.validReports.length = 0 := by
    simpa [List.length_eq_zero] using hne
  constructor
  · unfold verifyReports
    rw [hs, hb]
    rw [if_neg (by simp)]
    dsimp only
    rw [if_neg hlen]
    congr 1
    rw [jsFilterIdx_eq_range']
    unfold attestationsAtIndices
    rw [List.range_eq_range' atts.length]
    apply List.map_congr_left
    intro i _
    simp
  · obtain ⟨i0, hi0⟩ := List.exists_mem_of_ne_nil _ hne
    have hi0n : i0 < atts.length := hlt i0 hi0
    have hmem : i0 ∈ (List.range atts.length).filter (fun i => v.validReports.contains i) :=
      List.mem_filter.2 ⟨List.mem_range.2 hi0n, by simpa [List.elem_iff] using hi0⟩
    unfold attestationsAtIndices
    simp only [ne_eq, List.map_eq_nil_iff]
    exact List.ne_nil_of_mem hmem

/-- Witness for C2 at a concrete input: three submitted attestations,
verifier accepts indices 0 and 2. -/
theorem verifyReports_partial_acceptance_witness :
    verifyReports [attSgx, attNitro, attThird] respAcceptZeroTwo =
      Except.ok (attestationsAtIndices [attSgx, attNitro, attThird] [0, 2])
    ∧ attestationsAtIndices [attSgx, attNitro, attThird] [0, 2] ≠ [] :=
  verifyReports_partial_acceptance [attSgx, attNitro, attThird] respAcceptZeroTwo
    { validReports := [0, 2], errorMessage := "" } rfl rfl (by decide) (by decide)

/-- C3: the backend fan-out join waits for every backend to settle: it
returns the list of all successful responses whenever at least one backend
succeeded, and it fails exactly when none did, with a single aggregate
error enumerating every backend's failure reason. -/
theorem requestBackendMesh_join_semantics (ε ρ : Type) (settled : List (Except ε ρ)) :
    ((∃ r ∈ settled, exceptOk r ≠ none) →
      requestBackendMesh settled = Except.ok (settled.filterMap exceptOk))
    ∧ ((∀ r ∈ settled, exceptOk r = none) →
      requestBackendMesh settled = Except.error (settled.filterMap exceptErr)) := by
  constructor
  · rintro ⟨r, hr, hne⟩
    have hv : ∃ v, exceptOk r = some v := by
      cases hx : exceptOk r with
      | none => exact absurd hx hne
      | some v => exact ⟨v, rfl⟩
    obtain ⟨v, hv⟩ := hv
    have hmem : v ∈ settled.filterMap exceptOk := List.mem_filterMap.2 ⟨r, hr, hv⟩
    have hnil : ¬ (settled.filterMap exceptOk).length = 0 := by
      simpa [List.length_eq_zero] using List.ne_nil_of_mem hmem
    simp only [requestBackendMesh, settleFold_eq]
    rw [if_neg hnil]
  · intro hall
    have hnil : settled.filterMap exceptOk = [] := List.filterMap_eq_nil_iff.2 hall
    simp only [requestBackendMesh, settleFold_eq]
    rw [if_pos (by rw [hnil]; rfl)]

/-- Witness for C3 at a concrete input: one of two backends succeeds, and
the join returns that single success. -/
theorem requestBackendMesh_join_semantics_witness :
    requestBackendMesh [Except.ok 7, Except.error ("dns failure")] =
      Except.ok (([Except.ok 7, Except.error ("dns failure")] :
        List (Except String Nat)).filterMap exceptOk) :=
  (requestBackendMesh_join_semantics String Nat
      [Except.ok 7, Except.error ("dns failure")]).1
    ⟨Except.ok 7, by decide, by simp [exceptOk]⟩

/-- C4: with an attestation count of zero or above the number of configured
backends, `handleAttestations` fails with the unexpected-count
IntegrityError whatever the verifier would answer (so before any
verification request matters); and a successful call returns between 1 and
`numBackends` attestations. -/
theorem handleAttestations_count_invariant (numBackends : Nat) (options : NotarizationOptions)
    (atts : List AttestationResponse) (vresp : VerifierResponse) :
    ((atts.length = 0 ∨ atts.length > numBackends) →
      handleAttestations numBackends options atts vresp =
        Except.error (.integrity (.unexpectedAttestationCount numBackends atts.length)))
    ∧ (∀ out, handleAttestations numBackends options atts vresp = Except.ok out →
        1 ≤ out.length ∧ out.length ≤ numBackends) := by
  constructor
  · intro h
    simp only [handleAttestations]
    rw [if_pos h]
  · intro out h
    simp only [handleAttestations] at h
    split at h
    · cases h
    · rename_i hcount
      split at h
      · cases h
      · have hsub : out.length ≠ 0 ∧ List.Sublist out atts := by
          split at h
          · split at h
            · cases h
            · exact afterClientChecks_ok atts vresp out h
          · exact afterClientChecks_ok atts vresp out h
        obtain ⟨h1, h2⟩ := hsub
        have h3 := List.Sublist.length_le h2
        omega

/-- Witness for C4 at a concrete input: an empty attestation list against
one configured backend fails with the count error. -/
theorem handleAttestations_count_invariant_witness :
    handleAttestations 1 DEFAULT_NOTARIZATION_OPTIONS [] respAcceptBoth =
      Except.error (.integrity (.unexpectedAttestationCount 1 0)) :=
  (handleAttestations_count_invariant 1 DEFAULT_NOTARIZATION_OPTIONS [] respAcceptBoth).1
    (Or.inl rfl)

/-- C5: with `dataShouldMatch` enabled and a count that passes the first
check, any two attestations with different extracted data make
`handleAttestations` fail with the data-mismatch IntegrityError whose cause
carries every observed extracted value, for every possible verifier
response (so before any verification request matters); and when all
extracted values agree the call never fails with a data-mismatch error. -/
theorem handleAttestations_data_mismatch (numBackends : Nat) (options : NotarizationOptions)
    (atts : List AttestationResponse) (vresp : VerifierResponse)
    (hd : options.dataShouldMatch = true)
    (hc : atts.length ≠ 0 ∧ atts.length ≤ numBackends) :
    ((∃ a ∈ atts, ∃ b ∈ atts, a.attestationData ≠ b.attestationData) →
      handleAttestations numBackends options atts vresp =
        Except.error (.integrity (.dataMismatch (atts.map (fun a => a.attestationData)))))
    ∧ ((∀ a ∈ atts, ∀ b ∈ atts, a.attestationData = b.attestationData) →
      ∀ obs, handleAttestations numBackends options atts vresp ≠
        Except.error (.integrity (.dataMismatch obs))) := by
  have hcond : ¬ (atts.length = 0 ∨ atts.length > numBackends) := by omega
  constructor
  · rintro ⟨a, ha, b, hb, hne⟩
    have hm : dataMatchFails true atts = true :=
      dataMatchFails_of_pair_ne atts a b ha hb hne
    simp only [handleAttestations]
    rw [if_neg hcond, hd, hm]
    rw [if_pos rfl]
  · intro hall obs hcontra
    have hfalse : dataMatchFails true atts = false := by
      cases atts with
      | nil => rfl
      | cons f r =>
        exact dataMatchFails_false_of_all_eq true f r
          (fun x hx => hall x (List.mem_cons_of_mem f hx) f (List.mem_cons_self f r))
    simp only [handleAttestations] at hcontra
    rw [if_neg hcond, hd, hfalse] at hcontra
    rw [if_neg (by decide)] at hcontra
    split at hcontra
    · split at hcontra
      · simp at hcontra
      · exact afterClientChecks_ne_dataMismatch atts vresp obs hcontra
    · exact afterClientChecks_ne_dataMismatch atts vresp obs hcontra

/-- Witness for C5 at a concrete input: two attestations with extracted
data "42" and "43" under default options fail with the mismatch error
carrying both values. -/
theorem handleAttestations_data_mismatch_witness :
    handleAttestations 2 DEFAULT_NOTARIZATION_OPTIONS [attSgx, attThird] respAcceptBoth =
      Except.error (.integrity (.dataMismatch
        ([attSgx, attThird].map (fun a => a.attestationData)))) :=
  (handleAttestations_data_mismatch 2 DEFAULT_NOTARIZATION_OPTIONS [attSgx, attThird]
      respAcceptBoth rfl (by decide)).1
    ⟨attSgx, by decide, attThird, by decide, by decide⟩

/-- C6: `getAttestedRandom` rejects an upper bound that is at most 1 or
greater than 2^128 before anything else happens, and for a bound in range
it plans exactly one GET request per configured backend against
`/random?max=<decimal bound>`. -/
theorem getAttestedRandom_precondition (backends : List CustomBackendConfig) (max : Int) :
    ((max ≤ 1 ∨ max > 2 ^ 128) →
      getAttestedRandomPlan backends max = Except.error (.generic .invalidRandomUpperBound))
    ∧ (1 < max → max ≤ 2 ^ 128 →
      getAttestedRandomPlan backends max =
        Except.ok (backends.map fun b => (b, ("GET"), ("/random?max=") ++ toString max))
      ∧ ∀ plan, getAttestedRandomPlan backends max = Except.ok plan →
          plan.length = backends.length) := by
  have h2 : (2 * 2 ^ 127 : Int) = 2 ^ 128 := by norm_num
  constructor
  · intro h
    simp only [getAttestedRandomPlan]
    rw [if_pos (by rw [h2]; exact h)]
  · intro h1 hle
    have hcond : ¬ ((max : Int) ≤ 1 ∨ max > 2 * 2 ^ 127) := by
      rw [h2]; push_neg; exact ⟨h1, hle⟩
    constructor
    · simp only [getAttestedRandomPlan]
      rw [if_neg hcond]
    · intro plan hplan
      simp only [getAttestedRandomPlan] at hplan
      rw [if_neg hcond] at hplan
      cases hplan
      simp

/-- Witness for C6 at a concrete input: upper bound 100 over the two
default backends plans one request per backend. -/
theorem getAttestedRandom_precondition_witness :
    getAttestedRandomPlan DEFAULT_NOTARIZATION_BACKENDS 100 =
      Except.ok (DEFAULT_NOTARIZATION_BACKENDS.map
        fun b => (b, ("GET"), ("/random?max=") ++ toString (100 : Int))) :=
  ((getAttestedRandom_precondition DEFAULT_NOTARIZATION_BACKENDS 100).2
    (by norm_num) (by norm_num)).1

/-- C7 counterexample: when the verifier's body fails to parse as JSON,
`verifyReports` throws the plain `Error('verification failed')`, not an
`AttestationIntegrityError`, so the claim that all three failure cases
throw an IntegrityError is false at this input. -/
theorem verifyReports_parse_failure_plain_error :
    verifyReports [attSgx, attNitro] respParseFail =
      Except.error (ClientError.generic (GenericCause.verificationParseFailed ("200")))
    ∧ ClientError.isIntegrity
        (ClientError.generic (GenericCause.verificationParseFailed ("200"))) = false :=
  ⟨by decide, rfl⟩

/-- C7 (amended): `verifyReports` fails in each of the three cases, with an
IntegrityError for a non-200 verifier status and for a verdict accepting
zero attestations, and with a plain (non-integrity) Error when the body
fails to parse as JSON. -/
theorem verifyReports_failure_classification (atts : List AttestationResponse)
    (resp : VerifierResponse) :
    (resp.status ≠ 200 →
      verifyReports atts resp =
        Except.error (.integrity (.verificationFailedStatus resp.statusText)))
    ∧ (resp.status = 200 → resp.body = none →
      verifyReports atts resp =
        Except.error (.generic (.verificationParseFailed resp.statusText)))
    ∧ (∀ v, resp.status = 200 → resp.body = some v → v.validReports = [] →
      verifyReports atts resp =
        Except.error (.integrity (.verificationFailedAllReports v.errorMessage))) := by
  refine ⟨fun hs => ?_, fun hs hb => ?_, fun v hs hb hv => ?_⟩
  · unfold verifyReports
    rw [if_pos hs]
  · unfold verifyReports
    rw [if_neg (by simp [hs]), hb]
  · unfold verifyReports
    rw [if_neg (by simp [hs]), hb]
    dsimp only
    rw [if_pos (by rw [hv]; rfl)]

/-- Witness for C7 at a concrete input: a 500 status fails with the
integrity status error. -/
theorem verifyReports_failure_classification_witness :
    verifyReports [attSgx] respStatus500 =
      Except.error (.integrity (.verificationFailedStatus ("500"))) :=
  (verifyReports_failure_classification [attSgx] respStatus500).1 (by decide)

/-- C8: each stage of the notarize pipeline preserves the configured-backend
order of the survivors: the fan-out join and the settlement step return the
fulfilled values exactly in input (configured) order, and the verification
filter returns a sublist of the validated batch. -/
theorem notarize_stages_preserve_configured_order (ε ρ α : Type) :
    (∀ (settled : List (Except ε ρ)) (rs : List ρ),
        requestBackendMesh settled = Except.ok rs → rs = settled.filterMap exceptOk)
    ∧ (∀ (settled : List (Except ε α)) (outs : List α),
        settleAttestationResponses settled = Except.ok outs →
          outs = settled.filterMap exceptOk)
    ∧ (∀ (atts : List AttestationResponse) (resp : VerifierResponse)
          (vs : List AttestationResponse),
        verifyReports atts resp = Except.ok vs → List.Sublist vs atts) := by
  refine ⟨fun settled rs h => ?_, fun settled outs h => ?_,
    fun atts resp vs h => verifyReports_ok_sublist atts resp vs h⟩
  · simp only [requestBackendMesh, settleFold_eq] at h
    by_cases hc : (settled.filterMap exceptOk).length = 0
    · rw [if_pos hc] at h; cases h
    · rw [if_neg hc] at h; cases h; rfl
  · simp only [settleAttestationResponses, settleFold_eq] at h
    by_cases hc : (settled.filterMap exceptOk).length = 0
    · rw [if_pos hc] at h; cases h
    · rw [if_neg hc] at h; cases h; rfl

/-- Witness for C8 at a concrete input: surviving values keep input order. -/
theorem notarize_stages_preserve_configured_order_witness :
    ([7, 9] : List Nat) =
      ([Except.ok 7, Except.error ("x"), Except.ok 9] :
        List (Except String Nat)).filterMap exceptOk :=
  (notarize_stages_preserve_configured_order String Nat Nat).1
    [Except.ok 7, Except.error ("x"), Except.ok 9] [7, 9] (by decide)

/-- C9: address resolution keeps the configured address as the only target
when it is an IP literal or resolution is disabled, otherwise returns one
entry per resolved address in resolver order; and when the resolver never
fulfills with an empty list, a successful resolution is never empty. -/
theorem getOrResolveFullAddress_behaviour (ε : Type) (isIP : String → Bool)
    (resolver : String → Except ε (List String)) (info : CustomBackendConfig)
    (path : String) :
    ((isIP info.address = true ∨ info.resolve = false) →
      getOrResolveFullAddress isIP resolver info path =
        Except.ok [buildIpAndUrl info path info.address])
    ∧ (isIP info.address = false → info.resolve = true →
      ∀ ips, resolver info.address = Except.ok ips →
        getOrResolveFullAddress isIP resolver info path =
          Except.ok (ips.map (buildIpAndUrl info path)))
    ∧ ((∀ ips, resolver info.address = Except.ok ips → ips ≠ []) →
      ∀ out, getOrResolveFullAddress isIP resolver info path = Except.ok out →
        out ≠ []) := by
  refine ⟨fun h => ?_, fun hip hres ips hips => ?_, fun hresolv out hout => ?_⟩
  · simp only [getOrResolveFullAddress]
    rw [if_neg ?hc]
    case hc =>
      rintro ⟨h1, h2⟩
      rcases h with h | h
      · rw [h] at h1; cases h1
      · rw [h] at h2; cases h2
    rfl
  · simp only [getOrResolveFullAddress]
    rw [if_pos ⟨hip, hres⟩, hips]
  · simp only [getOrResolveFullAddress] at hout
    by_cases hc : isIP info.address = false ∧ info.resolve = true
    · rw [if_pos hc] at hout
      cases hr : resolver info.address with
      | error e => rw [hr] at hout; cases hout
      | ok ips =>
        rw [hr] at hout
        dsimp only at hout
        cases hout
        simp only [ne_eq, List.map_eq_nil_iff]
        exact hresolv ips hr
    · rw [if_neg hc] at hout
      dsimp only at hout
      cases hout
      simp

/-- Witness for C9 at a concrete input: a literal-IP address is returned as
the single target without consulting the resolver. -/
theorem getOrResolveFullAddress_behaviour_witness :
    getOrResolveFullAddress (fun _ => true)
        (fun _ => (Except.error ("ENOTFOUND") : Except String (List String)))
        DEFAULT_VERIFICATION_BACKEND ("/verify") =
      Except.ok [buildIpAndUrl DEFAULT_VERIFICATION_BACKEND ("/verify")
        DEFAULT_VERIFICATION_BACKEND.address] :=
  (getOrResolveFullAddress_behaviour String (fun _ => true)
      (fun _ => Except.error ("ENOTFOUND")) DEFAULT_VERIFICATION_BACKEND ("/verify")).1
    (Or.inl rfl)

/-- C10: the constructor writes through the shared reference: with a
caller-supplied verifier the caller's very object ends up with the default
fetch options merged under its own, a trimmed address and a trimmed prefix;
with none, the module constant `DEFAULT_VERIFICATION_BACKEND` object is
normalized in place, and a second client constructed afterwards aliases the
same object. -/
theorem constructor_normalizes_verifier_in_place (w : VerifierWorld)
    (v : CustomBackendConfig) :
    (w.callerVerifier = some v →
      constructorVerifierSetup w =
        ({ w with callerVerifier := some ({ v with
            address := trimUrl v.address,
            apiPrefix := some (trimPath ((CustomBackendConfig.apiPrefix v).getD (""))),
            init := jsSpread DEFAULT_FETCH_OPTIONS v.init }) },
         VerifierRef.caller))
    ∧ (w.callerVerifier = none →
      (constructorVerifierSetup w =
        ({ w with defaultVerifier := { w.defaultVerifier with
            address := trimUrl w.defaultVerifier.address,
            apiPrefix := some (trimPath
              ((CustomBackendConfig.apiPrefix w.defaultVerifier).getD (""))) } },
         VerifierRef.defaultBackend))
      ∧ (constructorVerifierSetup ((constructorVerifierSetup w).1)).2 =
          VerifierRef.defaultBackend) := by
  constructor
  · intro h
    obtain ⟨cv, dv⟩ := w
    simp only at h
    subst h
    simp [constructorVerifierSetup, sanitizeVerifier, writeVerifierRef, Option.map]
  · intro h
    obtain ⟨cv, dv⟩ := w
    simp only at h
    subst h
    constructor
    · simp [constructorVerifierSetup, sanitizeVerifier, writeVerifierRef]
    · simp [constructorVerifierSetup, sanitizeVerifier, writeVerifierRef]

/-- Witness for C10 at a concrete input: constructing with no verifier
normalizes the module constant in place and aliases it. -/
theorem constructor_normalizes_verifier_in_place_witness :
    constructorVerifierSetup worldDefault =
      ({ worldDefault with defaultVerifier := { worldDefault.defaultVerifier with
          address := trimUrl worldDefault.defaultVerifier.address,
          apiPrefix := some (trimPath
            ((CustomBackendConfig.apiPrefix worldDefault.defaultVerifier).getD (""))) } },
       VerifierRef.defaultBackend) :=
  ((constructor_normalizes_verifier_in_place worldDefault DEFAULT_VERIFICATION_BACKEND).2
    rfl).1

end AleoOracleSDK
